import Mathlib

/-!
A shallow embedding of `src/email_sendar.py` (a command-line email sender built
on `configparser`, `email.mime` and `smtplib`) and proofs of its specified
properties.

Modelling conventions:
* Machine effects are oracles: a `FileSystem` supplies `os.path.exists`,
  binary file reads (`open(path, 'rb').read()`, failing with the exception
  text) and the parsed sections of an INI file; an `SmtpModel` supplies the
  outcome of each SMTP operation.
* Executed side effects (log lines, network operations) are recorded as an
  `Event` trace, returned by each function in program order.
* Python exceptions become `Except` / `Option` values; an exception caught by
  an `except` clause becomes a `match` on the error value.
* `configparser` stores option names through `optionxform`, which lowercases
  them; `SectionProxy` lookups lowercase the queried key, while `dict(section)`
  exposes the stored (lowercased) keys and a plain-`dict` lookup is exact.
  Both behaviours are modelled (`sectionGet` vs `dictGet`).
-/

namespace EmailSender

/-- File contents, as the list of byte values read by `file.read()`. -/
abbrev Bytes := List Nat

/-- A key/value mapping as held by one INI section or by a Python `dict`,
in insertion order. -/
abbrev ConfigSection := List (String × String)

/-- The errors that can arise inside `send_email`'s `try` block: the three
`smtplib` exceptions it names, plus `KeyError` (a `dict` lookup miss),
`ValueError` (a failed `int(...)` conversion) and any other exception, all of
which fall to its catch-all `except Exception` clause. -/
inductive PyErr where
  | smtpConnectErr
  | smtpServerDisconnected
  | smtpAuthErr
  | keyError (key : String)
  | valueError (msg : String)
  | otherErr (msg : String)
  deriving Repr, DecidableEq

/-- The errors `load_config` can raise: `FileNotFoundError` (carrying its
message) or the `KeyError` from `config["EMAIL"]`. -/
inductive ConfigError where
  | fileNotFound (msg : String)
  | keyError (key : String)
  deriving Repr, DecidableEq

/-- One MIME part attached to the multipart message: `MIMEText(content, subtype)`
or `MIMEApplication(data, Name=name)` with its `Content-Disposition` header. -/
inductive MIMEPart where
  | text (subtype : String) (content : String)
  | application (name : String) (contentDisposition : String) (data : Bytes)
  deriving Repr, DecidableEq

/-- The built `MIMEMultipart` message: the explicitly assigned headers in
assignment order, and the attached parts in attachment order.  (Headers the
library adds on its own, such as `MIME-Version`, are not modelled.) -/
structure MIMEMultipart where
  headers : List (String × String)
  payload : List MIMEPart
  deriving Repr, DecidableEq

/-- One observable step of a run: a log line or an SMTP operation. -/
inductive Event where
  | logInfo (msg : String)
  | logError (msg : String)
  | smtpConnect (host : String) (port : Int)
  | starttls
  | login (user : String) (password : String)
  | sendmail (fromAddr : String) (recipients : List String) (message : MIMEMultipart)
  | smtpQuit
  deriving Repr, DecidableEq

/-- Whether an event is a network (SMTP-level) operation, as opposed to a
log line. -/
def isNetworkEvent : Event → Bool
  | Event.logInfo _ => false
  | Event.logError _ => false
  | Event.smtpConnect _ _ => true
  | Event.starttls => true
  | Event.login _ _ => true
  | Event.sendmail _ _ _ => true
  | Event.smtpQuit => true

/-- The machine the program runs against: `os.path.exists`, reading a file as
bytes (`Except` carries the exception text on failure), and the sections the
INI parser would produce for a file, with option keys as written in the file. -/
structure FileSystem where
  pathExists : String → Bool
  readBytes : String → Except String Bytes
  iniFile : String → List (String × ConfigSection)

/-- The SMTP server's response to each operation of the session. -/
structure SmtpModel where
  connectResult : String → Int → Except PyErr Unit
  starttlsResult : Except PyErr Unit
  loginResult : String → String → Except PyErr Unit
  sendmailResult : String → List String → Except PyErr Unit

/-- Python `str.lower` on the ASCII option names involved here. -/
def pyLower (s : String) : String := String.mk (s.data.map Char.toLower)

/-- A plain Python `dict` lookup: exact key match, first binding wins. -/
def dictGet (d : ConfigSection) (key : String) : Option String :=
  (d.find? (fun kv => kv.1 == key)).map (fun kv => kv.2)

/-- A plain `dict` lookup that raises `KeyError` when the key is absent. -/
def dictGetExc (d : ConfigSection) (key : String) : Except PyErr String :=
  match dictGet d key with
  | some v => Except.ok v
  | none => Except.error (PyErr.keyError key)

/-- `configparser` storage: option names pass through `optionxform`
(lowercasing) when the file is parsed; section names are kept as written. -/
def parseIni (raw : List (String × ConfigSection)) : List (String × ConfigSection) :=
  raw.map (fun sec => (sec.1, sec.2.map (fun kv => (pyLower kv.1, kv.2))))

/-- A `SectionProxy` lookup: the queried key is passed through `optionxform`
(lowercased) before the stored options are searched. -/
def sectionGet (s : ConfigSection) (key : String) : Option String :=
  dictGet s (pyLower key)

/-- Python `str(KeyError(k))`, which is the `repr` of the key. -/
def keyErrorStr (key : String) : String := "'" ++ key ++ "'"

/-- `CONFIG_FILE = 'config.ini'`. -/
def CONFIG_FILE : String := "config.ini"

/-- `load_config(path)`: log and raise `FileNotFoundError` when the path does
not exist, otherwise parse the file and return its `EMAIL` section, raising
`KeyError('EMAIL')` when that section is absent.  Returns the log events
together with the result. -/
def load_config (fs : FileSystem) (path : String) :
    List Event × Except ConfigError ConfigSection :=
  if fs.pathExists path = false then
    ([Event.logError ("Configuration file not found: " ++ path)],
     Except.error (ConfigError.fileNotFound ("Configuration file not found: " ++ path)))
  else
    match (parseIni (fs.iniFile path)).find? (fun sec => sec.1 == "EMAIL") with
    | some sec => ([], Except.ok sec.2)
    | none => ([], Except.error (ConfigError.keyError "EMAIL"))

/-- One step of the `os.path.basename` scan: a `'/'` discards everything read
so far, any other character is kept, so the scan retains exactly the suffix
after the last `'/'`. -/
def basenameStep (acc : List Char) (c : Char) : List Char :=
  if c = '/' then [] else acc ++ [c]

/-- `os.path.basename`: the suffix of the path after its last `'/'`. -/
def basenameChars (l : List Char) : List Char :=
  l.foldl basenameStep []

/-- `os.path.basename` on strings. -/
def basename (p : String) : String := String.mk (basenameChars p.data)

/-- `email.utils.formataddr((realname, addr))` for the ASCII arguments used
here: the empty realname yields the bare address; a realname containing a
special character is double-quoted with backslash escaping; otherwise
`realname <addr>`. -/
def specialsChars : List Char :=
  ['(', ')', '<', '>', '@', ',', ':', ';', '\\', '"', '.', '[', ']']

/-- Backslash-escaping of `\` and `"` inside a quoted realname. -/
def escapeQuotes (s : String) : String :=
  String.mk (s.data.foldr
    (fun c acc => if c = '\\' ∨ c = '"' then '\\' :: c :: acc else c :: acc) [])

/-- `email.utils.formataddr` (ASCII case). -/
def formataddr (realname addr : String) : String :=
  if realname = "" then addr
  else if realname.data.any (fun c => specialsChars.contains c) then
    "\"" ++ escapeQuotes realname ++ "\" <" ++ addr ++ ">"
  else realname ++ " <" ++ addr ++ ">"

/-- Whether a MIME part is a text (body) part, as opposed to an attachment. -/
def isTextPart : MIMEPart → Bool
  | MIMEPart.text _ _ => true
  | MIMEPart.application _ _ _ => false

/-- One iteration of `create_email`'s attachment loop, success case: reading
`file_path` succeeds and yields a `MIMEApplication` part named by the basename,
with the matching `Content-Disposition` header.  A failed read yields no part. -/
def attachmentPart (fs : FileSystem) (file_path : String) : Option MIMEPart :=
  match fs.readBytes file_path with
  | Except.ok bytes =>
      some (MIMEPart.application (basename file_path)
        ("attachment; filename=\"" ++ basename file_path ++ "\"") bytes)
  | Except.error _ => none

/-- One iteration of `create_email`'s attachment loop, failure case: a failed
read logs the failure (with the exception text) and attaches nothing. -/
def attachFailLog (fs : FileSystem) (file_path : String) : Option Event :=
  match fs.readBytes file_path with
  | Except.ok _ => none
  | Except.error e => some (Event.logError ("Failed to attach " ++ file_path ++ ": " ++ e))

/-- `create_email(sender, receiver, subject, body, attachments, cc, bcc,
html_content)`: build the `MIMEMultipart` message.  Headers are `From` (through
`formataddr(('Sender', sender))`), `To`, `Cc` only when the CC list is truthy
(non-empty), and `Subject`; `bcc` is accepted but unused.  The body is attached
first: the HTML part when `html_content` is truthy, otherwise the plain part.
Each attachment path is then read; successes are attached in order, failures
are logged and skipped.  Returns the message and the log events. -/
def create_email (fs : FileSystem) (sender receiver subject body : String)
    (attachments : List String) (cc bcc : List String) (html_content : String) :
    MIMEMultipart × List Event :=
  ({ headers :=
       [("From", formataddr "Sender" sender), ("To", receiver)] ++
       (if cc.isEmpty then [] else [("Cc", String.intercalate ", " cc)]) ++
       [("Subject", subject)]
     payload :=
       (if html_content ≠ "" then MIMEPart.text "html" html_content
        else MIMEPart.text "plain" body) ::
       attachments.filterMap (attachmentPart fs) },
   attachments.filterMap (attachFailLog fs))

/-- ASCII whitespace, as stripped by Python `int()` from its argument. -/
def isPySpace (c : Char) : Bool :=
  c = ' ' ∨ c = '\t' ∨ c = '\n' ∨ c = '\r'

/-- Strip whitespace from both ends of a character list. -/
def stripChars (l : List Char) : List Char :=
  ((l.dropWhile isPySpace).reverse.dropWhile isPySpace).reverse

/-- Accumulate a base-10 value over a run of digits, failing on any
non-digit. -/
def parseDigitsAux (acc : Nat) : List Char → Option Nat
  | [] => some acc
  | c :: cs => if c.isDigit then parseDigitsAux (acc * 10 + (c.toNat - 48)) cs else none

/-- A non-empty all-digit run, as a natural number. -/
def parseDigits : List Char → Option Nat
  | [] => none
  | c :: cs => parseDigitsAux 0 (c :: cs)

/-- Python `int(s)` on a string: strip surrounding whitespace, accept an
optional sign followed by digits, raising `ValueError` otherwise. -/
def pyInt (s : String) : Except PyErr Int :=
  let core := stripChars s.data
  let parsed : Option Int :=
    match core with
    | '-' :: rest => (parseDigits rest).map (fun n => -(n : Int))
    | '+' :: rest => (parseDigits rest).map (fun n => (n : Int))
    | rest => (parseDigits rest).map (fun n => (n : Int))
  match parsed with
  | some n => Except.ok n
  | none =>
      Except.error (PyErr.valueError
        ("invalid literal for int() with base 10: '" ++ s ++ "'"))

/-- The body of `send_email`'s `try` block: evaluate
`smtplib.SMTP(config['SMTP_SERVER'], int(config['SMTP_PORT']))` (two exact
`dict` lookups, the `int` conversion, then the connection), enter the `with`
block, `starttls`, `login(config['USERNAME'], config['PASSWORD'])`, build
`all_recipients = [receiver] + cc + bcc`, `sendmail`, and log success; the
`with` block emits its closing `QUIT` on every exit path after a successful
connect.  Returns the events together with the first error raised, if any. -/
def smtpSession (smtp : SmtpModel) (config : ConfigSection) (message : MIMEMultipart)
    (sender receiver : String) (cc bcc : List String) : List Event × Option PyErr :=
  match dictGetExc config "SMTP_SERVER" with
  | Except.error e => ([], some e)
  | Except.ok host =>
    match dictGetExc config "SMTP_PORT" with
    | Except.error e => ([], some e)
    | Except.ok portStr =>
      match pyInt portStr with
      | Except.error e => ([], some e)
      | Except.ok port =>
        match smtp.connectResult host port with
        | Except.error e => ([Event.smtpConnect host port], some e)
        | Except.ok _ =>
          match smtp.starttlsResult with
          | Except.error e =>
              ([Event.smtpConnect host port, Event.starttls, Event.smtpQuit], some e)
          | Except.ok _ =>
            match dictGetExc config "USERNAME" with
            | Except.error e =>
                ([Event.smtpConnect host port, Event.starttls, Event.smtpQuit], some e)
            | Except.ok user =>
              match dictGetExc config "PASSWORD" with
              | Except.error e =>
                  ([Event.smtpConnect host port, Event.starttls, Event.smtpQuit], some e)
              | Except.ok pw =>
                match smtp.loginResult user pw with
                | Except.error e =>
                    ([Event.smtpConnect host port, Event.starttls, Event.login user pw,
                      Event.smtpQuit], some e)
                | Except.ok _ =>
                  match smtp.sendmailResult sender ([receiver] ++ cc ++ bcc) with
                  | Except.error e =>
                      ([Event.smtpConnect host port, Event.starttls, Event.login user pw,
                        Event.sendmail sender ([receiver] ++ cc ++ bcc) message,
                        Event.smtpQuit], some e)
                  | Except.ok _ =>
                      ([Event.smtpConnect host port, Event.starttls, Event.login user pw,
                        Event.sendmail sender ([receiver] ++ cc ++ bcc) message,
                        Event.logInfo ("Email sent successfully to " ++
                          String.intercalate ", " ([receiver] ++ cc ++ bcc)),
                        Event.smtpQuit], none)

/-- The log line produced by whichever `except` clause of `send_email` catches
the given error: the three named `smtplib` exceptions first, then the catch-all
`except Exception as e` with `f"Failed to send email: {e}"` (for a `KeyError`,
`str(e)` is the quoted key). -/
def exceptHandlerLog : PyErr → String
  | PyErr.smtpConnectErr => "SMTP server connection failed."
  | PyErr.smtpServerDisconnected => "Server disconnected unexpectedly."
  | PyErr.smtpAuthErr => "Authentication failed."
  | PyErr.keyError k => "Failed to send email: " ++ keyErrorStr k
  | PyErr.valueError m => "Failed to send email: " ++ m
  | PyErr.otherErr m => "Failed to send email: " ++ m

/-- `send_email(config, message, sender, receiver, cc, bcc, dry_run)`: when
`dry_run` is set, log the intent and return; otherwise run the SMTP session
and, when it raises, catch the error in the matching `except` clause and log
it.  Always returns the trace normally. -/
def send_email (smtp : SmtpModel) (config : ConfigSection) (message : MIMEMultipart)
    (sender receiver : String) (cc bcc : List String) (dry_run : Bool) : List Event :=
  if dry_run then
    [Event.logInfo ("Dry run enabled. Email would be sent to: " ++ receiver)]
  else
    match smtpSession smtp config message sender receiver cc bcc with
    | (evs, none) => evs
    | (evs, some e) => evs ++ [Event.logError (exceptHandlerLog e)]

/-- The parsed command-line arguments of `main`. -/
structure Args where
  receiver : String
  subject : String
  body : String
  html : Option String
  attachments : List String
  cc : List String
  bcc : List String
  dry_run : Bool

/-- `args.html or ""`: `None` (and the empty string) become `""`. -/
def pyOrEmpty : Option String → String
  | none => ""
  | some s => s

/-- `main()` after argument parsing: `load_config`, then `create_email` with
`sender=config["USERNAME"]` (a `SectionProxy` lookup), then `send_email` with
`config=dict(config)` (the stored, lowercased keys) — all inside a `try` whose
first clause catches `FileNotFoundError`/`PermissionError` and whose second
catches any other exception; each handler logs and the function returns. -/
def main (fs : FileSystem) (smtp : SmtpModel) (args : Args) : List Event :=
  match load_config fs CONFIG_FILE with
  | (evs, Except.error (ConfigError.fileNotFound msg)) =>
      evs ++ [Event.logError ("File or permission error: " ++ msg)]
  | (evs, Except.error (ConfigError.keyError k)) =>
      evs ++ [Event.logError ("Unexpected error occurred: " ++ keyErrorStr k)]
  | (evs, Except.ok config) =>
    match sectionGet config "USERNAME" with
    | none => evs ++ [Event.logError ("Unexpected error occurred: " ++ keyErrorStr "USERNAME")]
    | some user =>
      match create_email fs user args.receiver args.subject args.body
          args.attachments args.cc args.bcc (pyOrEmpty args.html) with
      | (message, createEvs) =>
          evs ++ createEvs ++
          send_email smtp config message user args.receiver args.cc args.bcc args.dry_run

/-! Concrete machines and inputs used to exercise the model at specific
points. -/

/-- A machine whose `config.ini` holds the usual `EMAIL` section (option names
as written in the file, in uppercase), and whose readable files are
`docs/report.pdf` and `notes.txt`. -/
def fsDemo : FileSystem :=
  { pathExists := fun p => p == CONFIG_FILE
    readBytes := fun p =>
      if p == "docs/report.pdf" then Except.ok [37, 80, 68, 70]
      else if p == "notes.txt" then Except.ok [104, 105]
      else Except.error ("[Errno 2] No such file or directory: '" ++ p ++ "'")
    iniFile := fun p =>
      if p == CONFIG_FILE then
        [("EMAIL",
          [("SMTP_SERVER", "smtp.example.com"), ("SMTP_PORT", "587"),
           ("USERNAME", "user@example.com"), ("PASSWORD", "secret")])]
      else [] }

/-- A machine with no `config.ini` at all. -/
def fsMissing : FileSystem :=
  { pathExists := fun _ => false
    readBytes := fun p => Except.error ("[Errno 2] No such file or directory: '" ++ p ++ "'")
    iniFile := fun _ => [] }

/-- A machine whose `config.ini` exists but has no `EMAIL` section. -/
def fsNoEmail : FileSystem :=
  { pathExists := fun p => p == CONFIG_FILE
    readBytes := fun p => Except.error ("[Errno 2] No such file or directory: '" ++ p ++ "'")
    iniFile := fun p => if p == CONFIG_FILE then [("GENERAL", [("X", "1")])] else [] }

/-- An SMTP server on which every operation succeeds. -/
def smtpOK : SmtpModel :=
  { connectResult := fun _ _ => Except.ok ()
    starttlsResult := Except.ok ()
    loginResult := fun _ _ => Except.ok ()
    sendmailResult := fun _ _ => Except.ok () }

/-- An SMTP server that refuses the connection (`SMTPConnectError`). -/
def smtpConnRefused : SmtpModel :=
  { smtpOK with connectResult := fun _ _ => Except.error PyErr.smtpConnectErr }

/-- A configuration `dict` with the exact uppercase keys `send_email` looks
up, for calling `send_email` directly. -/
def cfgDirect : ConfigSection :=
  [("SMTP_SERVER", "smtp.example.com"), ("SMTP_PORT", "587"),
   ("USERNAME", "sender@example.com"), ("PASSWORD", "pw")]

/-- A small already-built message. -/
def msgDemo : MIMEMultipart :=
  { headers := [("From", "Sender <sender@example.com>"), ("To", "a@x.com"), ("Subject", "Hi")]
    payload := [MIMEPart.text "plain" "Hello"] }

/-- Plain command-line arguments: one receiver, no CC/BCC/attachments, no
HTML, dry-run off. -/
def argsDemo : Args :=
  { receiver := "r@example.com", subject := "Hi", body := "Hello", html := none
    attachments := [], cc := [], bcc := [], dry_run := false }

/-! ### Helper lemmas -/

/-- The parts produced by the attachment loop are all `MIMEApplication` parts:
filtering them for text parts leaves nothing. -/
theorem filter_isText_attachParts (fs : FileSystem) (l : List String) :
    (l.filterMap (attachmentPart fs)).filter isTextPart = [] := by
  induction l with
  | nil => rfl
  | cons p t ih =>
    cases h : fs.readBytes p with
    | ok bs => simp [List.filterMap_cons, attachmentPart, h, isTextPart, ih]
    | error e => simp [List.filterMap_cons, attachmentPart, h, ih]

/-- The `basename` scan never retains a `'/'`. -/
theorem noSlash_foldl_basenameStep :
    ∀ (l acc : List Char), '/' ∉ acc → '/' ∉ l.foldl basenameStep acc := by
  intro l
  induction l with
  | nil => intro acc h; exact h
  | cons c t ih =>
    intro acc h
    simp only [List.foldl_cons]
    by_cases hc : c = '/'
    · subst hc
      exact ih [] (by simp [basenameStep])
    · have hstep : basenameStep acc c = acc ++ [c] := by simp [basenameStep, hc]
      rw [hstep]
      refine ih (acc ++ [c]) ?_
      intro hmem
      rcases List.mem_append.mp hmem with hin | hin
      · exact h hin
      · exact hc (List.mem_singleton.mp hin).symm

/-- `os.path.basename` of any path contains no `'/'`: no directory component
survives into the basename. -/
theorem noSlash_basename (p : String) : '/' ∉ (basename p).data :=
  noSlash_foldl_basenameStep p.data [] (by simp)

/-- Every `sendmail` event emitted by the SMTP session carries exactly the
envelope `[receiver] + cc + bcc` and the given sender and message. -/
theorem smtpSession_sendmail (smtp : SmtpModel) (config : ConfigSection)
    (m : MIMEMultipart) (sender receiver : String) (cc bcc : List String) :
    ∀ ev ∈ (smtpSession smtp config m sender receiver cc bcc).1,
      ∀ fa rc mm, ev = Event.sendmail fa rc mm →
        fa = sender ∧ mm = m ∧ rc = [receiver] ++ cc ++ bcc := by
  intro ev hev fa rc mm hsm
  subst hsm
  unfold smtpSession at hev
  repeat' split at hev
  all_goals simp_all

/-! ### Claim theorems -/

/-- C3: the built message carries exactly one body (text) part: the HTML part
with the given content when the HTML content is non-empty, and the plain-text
part with the given body otherwise; in neither case is the other variant
present. -/
theorem body_variant_exclusive (fs : FileSystem) (sender receiver subject body : String)
    (attachments cc bcc : List String) (html_content : String) :
    (html_content ≠ "" →
      (create_email fs sender receiver subject body attachments cc bcc
          html_content).1.payload.filter isTextPart = [MIMEPart.text "html" html_content]) ∧
    (html_content = "" →
      (create_email fs sender receiver subject body attachments cc bcc
          html_content).1.payload.filter isTextPart = [MIMEPart.text "plain" body]) := by
  constructor <;> intro h <;>
    simp [create_email, h, isTextPart, filter_isText_attachParts]

/-- C3 witness: with a non-empty HTML argument the sole body part is the HTML
one; with the empty HTML argument it is the plain-text one. -/
theorem body_variant_exclusive_witness :
    (create_email fsDemo "user@example.com" "r@example.com" "Hi" "Hello" [] [] []
        "<b>hi</b>").1.payload.filter isTextPart = [MIMEPart.text "html" "<b>hi</b>"] ∧
    (create_email fsDemo "user@example.com" "r@example.com" "Hi" "Hello" [] [] []
        "").1.payload.filter isTextPart = [MIMEPart.text "plain" "Hello"] :=
  ⟨(body_variant_exclusive fsDemo "user@example.com" "r@example.com" "Hi" "Hello"
      [] [] [] "<b>hi</b>").1 (by decide),
   (body_variant_exclusive fsDemo "user@example.com" "r@example.com" "Hi" "Hello"
      [] [] [] "").2 rfl⟩

/-- C4: an attachment path whose read fails never aborts `create_email`: the
built message is exactly the one built without that path (every other
attachment, before or after, is kept unchanged and in order), and the failure
is logged in place between the log events of the surrounding paths. -/
theorem attachment_failure_skipped (fs : FileSystem) (sender receiver subject body : String)
    (cc bcc : List String) (html_content : String) (l1 l2 : List String) (p emsg : String)
    (hp : fs.readBytes p = Except.error emsg) :
    (create_email fs sender receiver subject body (l1 ++ p :: l2) cc bcc html_content).1 =
      (create_email fs sender receiver subject body (l1 ++ l2) cc bcc html_content).1 ∧
    (create_email fs sender receiver subject body (l1 ++ p :: l2) cc bcc html_content).2 =
      (create_email fs sender receiver subject body l1 cc bcc html_content).2 ++
      [Event.logError ("Failed to attach " ++ p ++ ": " ++ emsg)] ++
      (create_email fs sender receiver subject body l2 cc bcc html_content).2 := by
  have h1 : attachmentPart fs p = none := by simp [attachmentPart, hp]
  have h2 : attachFailLog fs p =
      some (Event.logError ("Failed to attach " ++ p ++ ": " ++ emsg)) := by
    simp [attachFailLog, hp]
  constructor
  · simp [create_email, List.filterMap_append, List.filterMap_cons, h1]
  · simp [create_email, List.filterMap_append, List.filterMap_cons, h2]

/-- C4 witness: with a readable attachment before and after an unreadable one,
the message equals the message built from the two readable paths alone, and
the failure is logged between their (empty) log events. -/
theorem attachment_failure_skipped_witness :
    (create_email fsDemo "user@example.com" "r@example.com" "Hi" "Hello"
        (["docs/report.pdf"] ++ "missing.bin" :: ["notes.txt"]) [] [] "").1 =
      (create_email fsDemo "user@example.com" "r@example.com" "Hi" "Hello"
        (["docs/report.pdf"] ++ ["notes.txt"]) [] [] "").1 ∧
    (create_email fsDemo "user@example.com" "r@example.com" "Hi" "Hello"
        (["docs/report.pdf"] ++ "missing.bin" :: ["notes.txt"]) [] [] "").2 =
      (create_email fsDemo "user@example.com" "r@example.com" "Hi" "Hello"
        ["docs/report.pdf"] [] [] "").2 ++
      [Event.logError ("Failed to attach " ++ "missing.bin" ++ ": " ++
        "[Errno 2] No such file or directory: 'missing.bin'")] ++
      (create_email fsDemo "user@example.com" "r@example.com" "Hi" "Hello"
        ["notes.txt"] [] [] "").2 :=
  attachment_failure_skipped fsDemo "user@example.com" "r@example.com" "Hi" "Hello"
    [] [] "" ["docs/report.pdf"] ["notes.txt"] "missing.bin"
    "[Errno 2] No such file or directory: 'missing.bin'" rfl

/-- C9: a successfully read attachment is recorded in the message under the
basename of its path — both as the part's `Name` and in its
`Content-Disposition` filename — and that basename contains no `'/'`, so
directory components of the path do not survive. -/
theorem attachment_filename_basename (fs : FileSystem) (sender receiver subject body : String)
    (attachments cc bcc : List String) (html_content : String) (p : String) (bs : Bytes)
    (hmem : p ∈ attachments) (hread : fs.readBytes p = Except.ok bs) :
    MIMEPart.application (basename p)
        ("attachment; filename=\"" ++ basename p ++ "\"") bs ∈
      (create_email fs sender receiver subject body attachments cc bcc
        html_content).1.payload ∧
    '/' ∉ (basename p).data := by
  refine ⟨?_, noSlash_basename p⟩
  have hp : attachmentPart fs p =
      some (MIMEPart.application (basename p)
        ("attachment; filename=\"" ++ basename p ++ "\"") bs) := by
    simp [attachmentPart, hread]
  exact List.mem_cons_of_mem _ (List.mem_filterMap.mpr ⟨p, hmem, hp⟩)

/-- C9 witness: the readable path `docs/report.pdf` is attached under the
bare filename `report.pdf`, which contains no slash. -/
theorem attachment_filename_basename_witness :
    MIMEPart.application (basename "docs/report.pdf")
        ("attachment; filename=\"" ++ basename "docs/report.pdf" ++ "\"") [37, 80, 68, 70] ∈
      (create_email fsDemo "user@example.com" "r@example.com" "Hi" "Hello"
        ["docs/report.pdf"] [] [] "").1.payload ∧
    '/' ∉ (basename "docs/report.pdf").data :=
  attachment_filename_basename fsDemo "user@example.com" "r@example.com" "Hi" "Hello"
    ["docs/report.pdf"] [] [] "" "docs/report.pdf" [37, 80, 68, 70]
    (by decide) rfl

/-- C1: the built message has a `Cc` header exactly when the CC list is
non-empty, and then its value is the comma-space join of the CC addresses in
order; the message does not depend on the BCC list at all and has no `Bcc`
header; and every `sendmail` the code performs receives an envelope containing
every BCC address. -/
theorem cc_header_iff_and_bcc_envelope (fs : FileSystem)
    (sender receiver subject body : String) (attachments cc bcc bcc2 : List String)
    (html_content : String) (smtp : SmtpModel) (config : ConfigSection) :
    ((create_email fs sender receiver subject body attachments cc bcc
        html_content).1.headers.find? (fun kv => kv.1 == "Cc") =
      if cc.isEmpty then none else some ("Cc", String.intercalate ", " cc)) ∧
    ((create_email fs sender receiver subject body attachments cc bcc html_content).1 =
      (create_email fs sender receiver subject body attachments cc bcc2 html_content).1) ∧
    (∀ kv ∈ (create_email fs sender receiver subject body attachments cc bcc
        html_content).1.headers, kv.1 ≠ "Bcc") ∧
    (∀ ev ∈ send_email smtp config
        (create_email fs sender receiver subject body attachments cc bcc html_content).1
        sender receiver cc bcc false,
      ∀ fa rc mm, ev = Event.sendmail fa rc mm → ∀ b ∈ bcc, b ∈ rc) := by
  refine ⟨?_, rfl, ?_, ?_⟩
  · cases cc with
    | nil => rfl
    | cons c t => rfl
  · intro kv hkv
    cases cc with
    | nil =>
      simp [create_email] at hkv
      rcases hkv with rfl | rfl | rfl <;>
        first
        | (show "From" ≠ "Bcc"; decide)
        | (show "To" ≠ "Bcc"; decide)
        | (show "Subject" ≠ "Bcc"; decide)
    | cons c t =>
      simp [create_email] at hkv
      rcases hkv with rfl | rfl | rfl | rfl <;>
        first
        | (show "From" ≠ "Bcc"; decide)
        | (show "To" ≠ "Bcc"; decide)
        | (show "Cc" ≠ "Bcc"; decide)
        | (show "Subject" ≠ "Bcc"; decide)
  · intro ev hev fa rc mm hsm b hb
    have hrec := smtpSession_sendmail smtp config
      (create_email fs sender receiver subject body attachments cc bcc html_content).1
      sender receiver cc bcc
    cases hs : smtpSession smtp config
        (create_email fs sender receiver subject body attachments cc bcc html_content).1
        sender receiver cc bcc with
    | mk evs err =>
      rw [hs] at hrec
      cases err with
      | none =>
        rw [send_email, if_neg (by simp), hs] at hev
        rcases hrec ev hev fa rc mm hsm with ⟨_, _, hrc⟩
        subst hrc
        simp [hb]
      | some e =>
        rw [send_email, if_neg (by simp), hs] at hev
        rcases List.mem_append.mp hev with hin | hin
        · rcases hrec ev hin fa rc mm hsm with ⟨_, _, hrc⟩
          subst hrc
          simp [hb]
        · subst hsm
          simp at hin

/-- C1 witness: with CC `["b@x.com", "d@x.com"]` the header value is their
comma-space join; the `From` header key differs from `Bcc`; and the BCC
address `c@x.com` is in the envelope of the `sendmail` the trace contains. -/
theorem cc_header_iff_and_bcc_envelope_witness :
    ((create_email fsDemo "sender@example.com" "r@x.com" "Hi" "Hello" []
        ["b@x.com", "d@x.com"] ["c@x.com"] "").1.headers.find?
        (fun kv => kv.1 == "Cc") =
      if (["b@x.com", "d@x.com"] : List String).isEmpty then none
      else some ("Cc", String.intercalate ", " ["b@x.com", "d@x.com"])) ∧
    (("From", formataddr "Sender" "sender@example.com").1 ≠ "Bcc") ∧
    ("c@x.com" ∈ ["r@x.com"] ++ ["b@x.com", "d@x.com"] ++ ["c@x.com"]) :=
  ⟨(cc_header_iff_and_bcc_envelope fsDemo "sender@example.com" "r@x.com" "Hi" "Hello"
      [] ["b@x.com", "d@x.com"] ["c@x.com"] [] "" smtpOK cfgDirect).1,
   (cc_header_iff_and_bcc_envelope fsDemo "sender@example.com" "r@x.com" "Hi" "Hello"
      [] ["b@x.com", "d@x.com"] ["c@x.com"] [] "" smtpOK cfgDirect).2.2.1
      ("From", formataddr "Sender" "sender@example.com") (by decide),
   (cc_header_iff_and_bcc_envelope fsDemo "sender@example.com" "r@x.com" "Hi" "Hello"
      [] ["b@x.com", "d@x.com"] ["c@x.com"] [] "" smtpOK cfgDirect).2.2.2
      (Event.sendmail "sender@example.com"
        (["r@x.com"] ++ ["b@x.com", "d@x.com"] ++ ["c@x.com"])
        (create_email fsDemo "sender@example.com" "r@x.com" "Hi" "Hello" []
          ["b@x.com", "d@x.com"] ["c@x.com"] "").1)
      (by decide) "sender@example.com"
      (["r@x.com"] ++ ["b@x.com", "d@x.com"] ++ ["c@x.com"])
      (create_email fsDemo "sender@example.com" "r@x.com" "Hi" "Hello" []
        ["b@x.com", "d@x.com"] ["c@x.com"] "").1
      rfl "c@x.com" (by decide)⟩

/-- C2 counterexample: with receiver `a@x.com` and CC `["a@x.com"]` the code
dispatches the envelope `["a@x.com", "a@x.com"]`, which is not duplicate-free,
so the transmitted recipients are a plain list concatenation and not a set
union without duplicates. -/
theorem send_recipients_duplicate_counterexample :
    send_email smtpOK cfgDirect msgDemo "sender@example.com" "a@x.com" ["a@x.com"] [] false =
      [Event.smtpConnect "smtp.example.com" 587, Event.starttls,
       Event.login "sender@example.com" "pw",
       Event.sendmail "sender@example.com" ["a@x.com", "a@x.com"] msgDemo,
       Event.logInfo "Email sent successfully to a@x.com, a@x.com",
       Event.smtpQuit] ∧
    ¬ List.Nodup ["a@x.com", "a@x.com"] := by
  constructor
  · decide
  · decide

/-- C2 (amended): when every session step succeeds, the non-dry-run
`send_email` dispatches exactly once, to the envelope recipient list
`[receiver] ++ cc ++ bcc` — receiver first, then the CC addresses in order,
then the BCC addresses in order — a list concatenation that can repeat an
address appearing in more than one of the three sources. -/
theorem send_dispatch_recipient_list (smtp : SmtpModel) (config : ConfigSection)
    (m : MIMEMultipart) (sender receiver : String) (cc bcc : List String)
    (host portStr user pw : String) (port : Int)
    (hS : dictGet config "SMTP_SERVER" = some host)
    (hP : dictGet config "SMTP_PORT" = some portStr)
    (hI : pyInt portStr = Except.ok port)
    (hC : smtp.connectResult host port = Except.ok ())
    (hT : smtp.starttlsResult = Except.ok ())
    (hU : dictGet config "USERNAME" = some user)
    (hW : dictGet config "PASSWORD" = some pw)
    (hL : smtp.loginResult user pw = Except.ok ())
    (hM : smtp.sendmailResult sender ([receiver] ++ cc ++ bcc) = Except.ok ()) :
    send_email smtp config m sender receiver cc bcc false =
      [Event.smtpConnect host port, Event.starttls, Event.login user pw,
       Event.sendmail sender ([receiver] ++ cc ++ bcc) m,
       Event.logInfo ("Email sent successfully to " ++
         String.intercalate ", " ([receiver] ++ cc ++ bcc)),
       Event.smtpQuit] := by
  simp only [List.cons_append, List.nil_append] at hM ⊢
  simp [send_email, smtpSession, dictGetExc, hS, hP, hI, hC, hT, hU, hW, hL]
  rw [hM]

/-- C2 (amended) witness: a fully successful session dispatches once to
`[receiver] ++ cc ++ bcc`. -/
theorem send_dispatch_recipient_list_witness :
    send_email smtpOK cfgDirect msgDemo "sender@example.com" "r@x.com"
        ["b@x.com"] ["c@x.com"] false =
      [Event.smtpConnect "smtp.example.com" 587, Event.starttls,
       Event.login "sender@example.com" "pw",
       Event.sendmail "sender@example.com"
         (["r@x.com"] ++ ["b@x.com"] ++ ["c@x.com"]) msgDemo,
       Event.logInfo ("Email sent successfully to " ++
         String.intercalate ", " (["r@x.com"] ++ ["b@x.com"] ++ ["c@x.com"])),
       Event.smtpQuit] :=
  send_dispatch_recipient_list smtpOK cfgDirect msgDemo "sender@example.com" "r@x.com"
    ["b@x.com"] ["c@x.com"] "smtp.example.com" "587" "sender@example.com" "pw" 587
    rfl rfl rfl rfl rfl rfl rfl rfl rfl

/-- C5: with the dry-run flag set, `send_email` only logs the intended
receiver and returns: its trace is that single log line, and no event of the
trace is a network operation, whatever the SMTP configuration and server. -/
theorem dry_run_no_network (smtp : SmtpModel) (config : ConfigSection)
    (m : MIMEMultipart) (sender receiver : String) (cc bcc : List String) :
    send_email smtp config m sender receiver cc bcc true =
      [Event.logInfo ("Dry run enabled. Email would be sent to: " ++ receiver)] ∧
    ∀ ev ∈ send_email smtp config m sender receiver cc bcc true,
      isNetworkEvent ev = false := by
  refine ⟨rfl, ?_⟩
  intro ev hev
  simp [send_email] at hev
  subst hev
  rfl

/-- C5 witness: a dry run against an unreachable server and an empty
configuration still only logs the intent. -/
theorem dry_run_no_network_witness :
    send_email smtpConnRefused [] msgDemo "sender@example.com" "r@x.com" [] [] true =
      [Event.logInfo ("Dry run enabled. Email would be sent to: " ++ "r@x.com")] ∧
    isNetworkEvent (Event.logInfo ("Dry run enabled. Email would be sent to: " ++ "r@x.com"))
      = false :=
  ⟨(dry_run_no_network smtpConnRefused [] msgDemo "sender@example.com" "r@x.com" [] []).1,
   (dry_run_no_network smtpConnRefused [] msgDemo "sender@example.com" "r@x.com" [] []).2
     (Event.logInfo ("Dry run enabled. Email would be sent to: " ++ "r@x.com")) (by decide)⟩

/-- C6: an error raised anywhere in the non-dry-run session is caught inside
`send_email`, which appends exactly the matching `except` clause's log line to
the session's events and returns that trace normally — connection failure,
unexpected disconnection and authentication failure each with its own message,
every other error through the catch-all. -/
theorem smtp_errors_caught_logged (smtp : SmtpModel) (config : ConfigSection)
    (m : MIMEMultipart) (sender receiver : String) (cc bcc : List String) (e : PyErr)
    (h : (smtpSession smtp config m sender receiver cc bcc).2 = some e) :
    send_email smtp config m sender receiver cc bcc false =
      (smtpSession smtp config m sender receiver cc bcc).1 ++
        [Event.logError (exceptHandlerLog e)] ∧
    exceptHandlerLog PyErr.smtpConnectErr = "SMTP server connection failed." ∧
    exceptHandlerLog PyErr.smtpServerDisconnected = "Server disconnected unexpectedly." ∧
    exceptHandlerLog PyErr.smtpAuthErr = "Authentication failed." := by
  refine ⟨?_, rfl, rfl, rfl⟩
  cases hs : smtpSession smtp config m sender receiver cc bcc with
  | mk evs err =>
    rw [hs] at h
    simp only at h
    subst h
    simp [send_email, hs]

/-- C6 witness: a refused connection yields the session's events followed by
the connection-failure log line, and `send_email` returns that trace. -/
theorem smtp_errors_caught_logged_witness :
    send_email smtpConnRefused cfgDirect msgDemo "sender@example.com" "r@x.com" [] [] false =
      (smtpSession smtpConnRefused cfgDirect msgDemo "sender@example.com" "r@x.com" [] []).1 ++
        [Event.logError (exceptHandlerLog PyErr.smtpConnectErr)] ∧
    exceptHandlerLog PyErr.smtpConnectErr = "SMTP server connection failed." ∧
    exceptHandlerLog PyErr.smtpServerDisconnected = "Server disconnected unexpectedly." ∧
    exceptHandlerLog PyErr.smtpAuthErr = "Authentication failed." :=
  smtp_errors_caught_logged smtpConnRefused cfgDirect msgDemo "sender@example.com" "r@x.com"
    [] [] PyErr.smtpConnectErr rfl

/-- C7: when the configuration file is absent, `load_config` logs the missing
file and raises `FileNotFoundError`; `main` catches it in its
file-or-permission handler and its whole trace is those two log lines — no
message construction and no send, in particular no network event. -/
theorem missing_config_aborts_run (fs : FileSystem) (smtp : SmtpModel) (args : Args)
    (h : fs.pathExists CONFIG_FILE = false) :
    load_config fs CONFIG_FILE =
      ([Event.logError ("Configuration file not found: " ++ CONFIG_FILE)],
       Except.error (ConfigError.fileNotFound
         ("Configuration file not found: " ++ CONFIG_FILE))) ∧
    main fs smtp args =
      [Event.logError ("Configuration file not found: " ++ CONFIG_FILE),
       Event.logError ("File or permission error: " ++
         ("Configuration file not found: " ++ CONFIG_FILE))] ∧
    (main fs smtp args).all (fun ev => !isNetworkEvent ev) = true := by
  have h1 : load_config fs CONFIG_FILE =
      ([Event.logError ("Configuration file not found: " ++ CONFIG_FILE)],
       Except.error (ConfigError.fileNotFound
         ("Configuration file not found: " ++ CONFIG_FILE))) := by
    simp [load_config, h]
  refine ⟨h1, ?_, ?_⟩ <;> simp [main, h1, isNetworkEvent]

/-- C7 witness: on a machine without `config.ini` the run is exactly the two
error log lines and touches no network. -/
theorem missing_config_aborts_run_witness :
    load_config fsMissing CONFIG_FILE =
      ([Event.logError ("Configuration file not found: " ++ CONFIG_FILE)],
       Except.error (ConfigError.fileNotFound
         ("Configuration file not found: " ++ CONFIG_FILE))) ∧
    main fsMissing smtpOK argsDemo =
      [Event.logError ("Configuration file not found: " ++ CONFIG_FILE),
       Event.logError ("File or permission error: " ++
         ("Configuration file not found: " ++ CONFIG_FILE))] ∧
    (main fsMissing smtpOK argsDemo).all (fun ev => !isNetworkEvent ev) = true :=
  missing_config_aborts_run fsMissing smtpOK argsDemo rfl

/-- C8, evaluated at the failing input: on a machine whose `config.ini` holds
a complete `EMAIL` section, a non-dry-run of `main` produces only the log line
`Failed to send email: 'SMTP_SERVER'` — `dict(config)` stores the options
under lowercased keys, so `send_email`'s uppercase lookup raises `KeyError`
before the connection is even attempted, `server.login` never runs, and the
USERNAME value is never used as the SMTP authentication identity.  The `From`
half of the claim does hold: the built message's `From` header carries the
USERNAME value (through `formataddr`). -/
theorem username_auth_never_used_bug :
    main fsDemo smtpOK argsDemo =
      [Event.logError ("Failed to send email: " ++ keyErrorStr "SMTP_SERVER")] ∧
    (main fsDemo smtpOK argsDemo).all (fun ev => !isNetworkEvent ev) = true ∧
    (create_email fsDemo "user@example.com" "r@example.com" "Hi" "Hello"
        [] [] [] "").1.headers.find? (fun kv => kv.1 == "From") =
      some ("From", "Sender <" ++ "user@example.com" ++ ">") := by
  refine ⟨by decide, by decide, by decide⟩

/-- C10: when `config.ini` exists but has no `EMAIL` section, `load_config`
raises the `KeyError` (not the missing-file error), which only `main`'s
generic handler catches: the whole trace is the one generic log line, with no
message construction, no send and no network event. -/
theorem missing_section_generic_handler (fs : FileSystem) (smtp : SmtpModel) (args : Args)
    (hex : fs.pathExists CONFIG_FILE = true)
    (hno : ∀ sec ∈ fs.iniFile CONFIG_FILE, sec.1 ≠ "EMAIL") :
    load_config fs CONFIG_FILE = ([], Except.error (ConfigError.keyError "EMAIL")) ∧
    main fs smtp args =
      [Event.logError ("Unexpected error occurred: " ++ keyErrorStr "EMAIL")] ∧
    (main fs smtp args).all (fun ev => !isNetworkEvent ev) = true := by
  have hfind : (parseIni (fs.iniFile CONFIG_FILE)).find?
      (fun sec => sec.1 == "EMAIL") = none := by
    rw [List.find?_eq_none]
    intro x hx
    unfold parseIni at hx
    rcases List.mem_map.mp hx with ⟨y, hy, rfl⟩
    simp [hno y hy]
  have h1 : load_config fs CONFIG_FILE =
      ([], Except.error (ConfigError.keyError "EMAIL")) := by
    simp [load_config, hex, hfind]
  refine ⟨h1, ?_, ?_⟩ <;> simp [main, h1, isNetworkEvent]

/-- C10 witness: a `config.ini` holding only a `GENERAL` section leads to the
single generic-handler log line and no network event. -/
theorem missing_section_generic_handler_witness :
    load_config fsNoEmail CONFIG_FILE = ([], Except.error (ConfigError.keyError "EMAIL")) ∧
    main fsNoEmail smtpOK argsDemo =
      [Event.logError ("Unexpected error occurred: " ++ keyErrorStr "EMAIL")] ∧
    (main fsNoEmail smtpOK argsDemo).all (fun ev => !isNetworkEvent ev) = true :=
  missing_section_generic_handler fsNoEmail smtpOK argsDemo rfl (by decide)

end EmailSender
